import Mathlib

/-!
Verification of a task CRUD service backed by a remote columnar analytical
store.  The service exposes five endpoint handlers (create, list, get,
update, delete) over a single `tasks` table with six columns
(id, title, description, status, created_at, updated_at).

The store is modelled as a list of rows (`List Row`); the remote store has
no uniqueness constraint on `id`, so duplicate ids are representable.
Timestamps are modelled as natural numbers.  All handlers run parameterized
queries: each handler's query text and typed parameter list are modelled
explicitly (`Query`, `ScalarQueryParameter`), including the update
handler's dynamically built SET clause over its `update_fields` dictionary
(an insertion-ordered association list, as in the source).  Datastore-level
failures (bad request, backend error) are outside the model; the only error
on these paths is the 404 `HTTPException` raised on a missing id.
-/

namespace BigQueryCrud

/-- Task status enumeration with the three members of the source enum. -/
inductive TaskStatus where
  | pending
  | in_progress
  | completed
deriving DecidableEq, Repr

/-- String value of a status member, as stored in the STRING column. -/
def TaskStatus.value : TaskStatus → String
  | .pending => "pending"
  | .in_progress => "in_progress"
  | .completed => "completed"

/-- Parse a stored status string back into the enumeration. -/
def TaskStatus.ofValue : String → Option TaskStatus
  | "pending" => some .pending
  | "in_progress" => some .in_progress
  | "completed" => some .completed
  | _ => none

/-- The Task response model: title, optional description, status, plus the
server-assigned id and the two timestamps. -/
structure Task where
  title : String
  description : Option String
  status : TaskStatus
  id : String
  created_at : Nat
  updated_at : Nat
deriving DecidableEq, Repr

/-- One row of the six-column tasks table. -/
structure Row where
  id : String
  title : String
  description : Option String
  status : TaskStatus
  created_at : Nat
  updated_at : Nat
deriving DecidableEq, Repr

/-- Create-request body: required title, optional description, status with
the schema-level default applied. -/
structure TaskCreate where
  title : String
  description : Option String
  status : TaskStatus
deriving DecidableEq, Repr

/-- Build a `TaskCreate` from a parsed request body: an omitted status takes
the schema default `pending`. -/
def TaskCreate.ofRequest (title : String) (description : Option String)
    (status : Option TaskStatus) : TaskCreate :=
  ⟨title, description, status.getD .pending⟩

/-- Update-request body: every field optional; an absent field and a
null-valued field both parse to `none` (the schema gives each field a
`None` default and the handler only tests `is not None`). -/
structure TaskUpdate where
  title : Option String
  description : Option String
  status : Option TaskStatus
deriving DecidableEq, Repr

/-- Schema constraint on the title: between 1 and 200 characters. -/
def validTitle (s : String) : Prop := 1 ≤ s.length ∧ s.length ≤ 200

instance (s : String) : Decidable (validTitle s) := by
  unfold validTitle; infer_instance

/-- HTTP error raised by a handler. -/
structure HTTPException where
  status_code : Nat
  detail : String
deriving DecidableEq, Repr

/-- The 404 error raised when no row matches the requested id. -/
def taskNotFound : HTTPException := ⟨404, "Task not found"⟩

/-- Convert a fetched row to the Task response model. -/
def row_to_task (row : Row) : Task :=
  { id := row.id
    title := row.title
    description := row.description
    status := row.status
    created_at := row.created_at
    updated_at := row.updated_at }

/-- BigQuery scalar parameter types used by the handlers. -/
inductive ParamType where
  | STRING
  | TIMESTAMP
deriving DecidableEq, Repr

/-- A bound parameter value: a string, a NULL (optional description on
create), or a timestamp. -/
inductive ParamValue where
  | str (s : String)
  | null
  | ts (t : Nat)
deriving DecidableEq, Repr

/-- A typed named query parameter, as passed in the job configuration. -/
structure ScalarQueryParameter where
  name : String
  type : ParamType
  value : ParamValue
deriving DecidableEq, Repr

/-- A query as submitted to the client: the text and its bound parameters,
always supplied together. -/
structure Query where
  text : String
  params : List ScalarQueryParameter
deriving DecidableEq, Repr

/-- The INSERT query of the create handler: fixed text over the table id,
all six values bound as typed parameters. -/
def createQuery (tbl : String) (task_id : String) (task : TaskCreate)
    (now : Nat) : Query :=
  { text := "\n    INSERT INTO `" ++ tbl ++ "` \n    (id, title, description, status, created_at, updated_at)\n    VALUES (@id, @title, @description, @status, @created_at, @updated_at)\n    "
    params := [
      ⟨"id", .STRING, .str task_id⟩,
      ⟨"title", .STRING, .str task.title⟩,
      ⟨"description", .STRING,
        match task.description with | some d => .str d | none => .null⟩,
      ⟨"status", .STRING, .str task.status.value⟩,
      ⟨"created_at", .TIMESTAMP, .ts now⟩,
      ⟨"updated_at", .TIMESTAMP, .ts now⟩] }

/-- The SELECT-all query of the list handler: fixed text, no parameters. -/
def listQuery (tbl : String) : Query :=
  { text := "\n    SELECT id, title, description, status, created_at, updated_at\n    FROM `" ++ tbl ++ "`\n    ORDER BY created_at DESC\n    "
    params := [] }

/-- The SELECT-by-id query of the get handler: fixed text, the id bound as
a STRING parameter. -/
def getQuery (tbl : String) (task_id : String) : Query :=
  { text := "\n    SELECT id, title, description, status, created_at, updated_at\n    FROM `" ++ tbl ++ "`\n    WHERE id = @task_id\n    "
    params := [⟨"task_id", .STRING, .str task_id⟩] }

/-- The DELETE query of the delete handler: fixed text, the id bound as a
STRING parameter. -/
def deleteQuery (tbl : String) (task_id : String) : Query :=
  { text := "\n    DELETE FROM `" ++ tbl ++ "`\n    WHERE id = @task_id\n    "
    params := [⟨"task_id", .STRING, .str task_id⟩] }

/-- The `update_fields` dictionary of the update handler, as an
insertion-ordered association list: each request field enters only when it
is not None, then `updated_at` is always appended. -/
def update_fields (task_update : TaskUpdate) (now : Nat) :
    List (String × ParamValue) :=
  (match task_update.title with
    | some t => [("title", ParamValue.str t)]
    | none => []) ++
  (match task_update.description with
    | some d => [("description", ParamValue.str d)]
    | none => []) ++
  (match task_update.status with
    | some s => [("status", ParamValue.str s.value)]
    | none => []) ++
  [("updated_at", ParamValue.ts now)]

/-- The dynamically built SET clause: one `field = @field` fragment per
dictionary key, joined with commas. -/
def set_clause (keys : List String) : String :=
  ", ".intercalate (keys.map (fun field => field ++ " = @" ++ field))

/-- The UPDATE query text over the table id and the dictionary keys. -/
def updateQueryText (tbl : String) (fields : List (String × ParamValue)) :
    String :=
  "\n    UPDATE `" ++ tbl ++ "`\n    SET " ++ set_clause (fields.map Prod.fst) ++ "\n    WHERE id = @task_id\n    "

/-- Parameter type chosen per update field: TIMESTAMP for `updated_at`,
STRING otherwise. -/
def paramTypeFor (field : String) : ParamType :=
  if field = "updated_at" then .TIMESTAMP else .STRING

/-- The UPDATE query of the update handler: the id plus one typed parameter
per dictionary entry. -/
def updateQuery (tbl : String) (task_id : String)
    (fields : List (String × ParamValue)) : Query :=
  { text := updateQueryText tbl fields
    params := ⟨"task_id", .STRING, .str task_id⟩ ::
      fields.map (fun f => ⟨f.1, paramTypeFor f.1, f.2⟩) }

/-- Dictionary lookup (`dict.get`): value of the first entry with the key. -/
def dictGet (fields : List (String × ParamValue)) (key : String) :
    Option ParamValue :=
  (fields.find? (fun f => f.1 = key)).map Prod.snd

/-- Store-side semantics of one SET assignment applied to a row: the named
column takes the bound value; a status string is parsed back into the
enumeration. -/
def applyField (r : Row) (f : String × ParamValue) : Row :=
  match f with
  | ("title", .str s) => { r with title := s }
  | ("description", .str s) => { r with description := some s }
  | ("status", .str s) =>
      match TaskStatus.ofValue s with
      | some st => { r with status := st }
      | none => r
  | ("updated_at", .ts t) => { r with updated_at := t }
  | _ => r

/-- The get handler: select the rows matching the id; 404 on zero rows,
otherwise the Task built from the first row. -/
def get_task (store : List Row) (task_id : String) :
    Except HTTPException Task :=
  let results := store.filter (fun r => r.id = task_id)
  match results with
  | [] => .error taskNotFound
  | row :: _ => .ok (row_to_task row)

/-- The create handler: insert one fully bound row with a server-generated
id and `created_at = updated_at = now`, and return the same Task. -/
def create_task (store : List Row) (task : TaskCreate) (task_id : String)
    (now : Nat) : List Row × Task :=
  (store ++ [{ id := task_id
               title := task.title
               description := task.description
               status := task.status
               created_at := now
               updated_at := now }],
   { id := task_id
     title := task.title
     description := task.description
     status := task.status
     created_at := now
     updated_at := now })

/-- Ordering used by the list handler: rows with later `created_at` first. -/
def createdDesc (a b : Row) : Prop := b.created_at ≤ a.created_at

instance : DecidableRel createdDesc :=
  fun a b => inferInstanceAs (Decidable (b.created_at ≤ a.created_at))

instance : IsTotal Row createdDesc :=
  ⟨fun a b => Nat.le_total b.created_at a.created_at⟩

instance : IsTrans Row createdDesc :=
  ⟨fun _ _ _ hab hbc => Nat.le_trans hbc hab⟩

/-- The list handler: all rows ordered by `created_at` descending, mapped
to Tasks. -/
def list_tasks (store : List Row) : List Task :=
  (List.insertionSort createdDesc store).map row_to_task

/-- The update handler: re-check existence via the get handler (propagating
its 404 unchanged, with no mutation); otherwise build `update_fields`,
short-circuit if the dictionary is empty, else run the UPDATE against every
matching row and return the merged Task (dictionary values override, absent
fields fall back to the existing task, `created_at` kept, `updated_at` read
from the dictionary). -/
def update_task (store : List Row) (task_id : String)
    (task_update : TaskUpdate) (now : Nat) :
    List Row × Except HTTPException Task :=
  match get_task store task_id with
  | .error e => (store, .error e)
  | .ok existing_task =>
    let fields := update_fields task_update now
    if fields.isEmpty then
      (store, .ok existing_task)
    else
      let store' := store.map
        (fun r => if r.id = task_id then fields.foldl applyField r else r)
      let updated_status := match task_update.status with
        | some s => s
        | none => existing_task.status
      (store',
       .ok { id := task_id
             title := match dictGet fields "title" with
               | some (.str s) => s
               | _ => existing_task.title
             description := match dictGet fields "description" with
               | some (.str s) => some s
               | _ => existing_task.description
             status := updated_status
             created_at := existing_task.created_at
             updated_at := match dictGet fields "updated_at" with
               | some (.ts t) => t
               | _ => 0 })

/-- The delete handler: re-check existence via the get handler (propagating
its 404 unchanged, with no mutation); otherwise delete every matching row
and return the success message. -/
def delete_task (store : List Row) (task_id : String) :
    List Row × Except HTTPException String :=
  match get_task store task_id with
  | .error e => (store, .error e)
  | .ok _ =>
    (store.filter (fun r => ¬ (r.id = task_id)), .ok "Task deleted successfully")

/-- Presence pattern of an update request: which of the three optional
fields were supplied. -/
def presence (u : TaskUpdate) : Bool × Bool × Bool :=
  (u.title.isSome, u.description.isSome, u.status.isSome)

end BigQueryCrud

namespace BigQueryCrud

/-- Parsing the string value of a status member recovers the member. -/
lemma TaskStatus.ofValue_value (s : TaskStatus) :
    TaskStatus.ofValue s.value = some s := by
  cases s <;> rfl

/-- The update dictionary is never empty: `updated_at` is always appended. -/
lemma update_fields_isEmpty (u : TaskUpdate) (n : Nat) :
    (update_fields u n).isEmpty = false := by
  rcases u with ⟨t, d, s⟩
  cases t <;> cases d <;> cases s <;> rfl

/-- Looking up `title` in the update dictionary yields exactly the supplied
title, when one was supplied. -/
lemma dictGet_title (u : TaskUpdate) (n : Nat) :
    dictGet (update_fields u n) "title" = u.title.map ParamValue.str := by
  rcases u with ⟨t, d, s⟩
  cases t <;> cases d <;> cases s <;> rfl

/-- Looking up `description` in the update dictionary yields exactly the
supplied description, when one was supplied. -/
lemma dictGet_description (u : TaskUpdate) (n : Nat) :
    dictGet (update_fields u n) "description" = u.description.map ParamValue.str := by
  rcases u with ⟨t, d, s⟩
  cases t <;> cases d <;> cases s <;> rfl

/-- Looking up `updated_at` in the update dictionary always yields the
fresh timestamp. -/
lemma dictGet_updated_at (u : TaskUpdate) (n : Nat) :
    dictGet (update_fields u n) "updated_at" = some (ParamValue.ts n) := by
  rcases u with ⟨t, d, s⟩
  cases t <;> cases d <;> cases s <;> rfl

/-- Applying the whole SET clause to a row merges the supplied fields over
the row, sets `updated_at` to the fresh timestamp, and leaves `id` and
`created_at` untouched. -/
lemma foldl_update_fields (u : TaskUpdate) (n : Nat) (r : Row) :
    (update_fields u n).foldl applyField r =
      { r with
        title := u.title.getD r.title
        description := match u.description with
          | some d => some d
          | none => r.description
        status := u.status.getD r.status
        updated_at := n } := by
  rcases u with ⟨t, d, s⟩
  rcases s with _ | st
  · cases t <;> cases d <;> rfl
  · cases st <;> cases t <;> cases d <;> rfl

end BigQueryCrud

namespace BigQueryCrud

/-- Sample row used to instantiate hypotheses at concrete inputs. -/
def row0 : Row :=
  { id := "a", title := "Buy milk", description := some "2 liters",
    status := .pending, created_at := 5, updated_at := 5 }

/-- Second sample row sharing the id of `row0`, with distinct content. -/
def row1 : Row :=
  { id := "a", title := "Other", description := none,
    status := .completed, created_at := 6, updated_at := 6 }

/-- Claim C2: for every create request with a valid title, the returned
Task has `created_at = updated_at = now`, status `pending` when the request
omitted status, and the request's title and description; moreover
`created_at = updated_at` holds whatever status was supplied. -/
theorem create_task_defaults (store : List Row) (title : String)
    (descr : Option String) (task_id : String) (now : Nat)
    (_h : validTitle title) :
    (create_task store (TaskCreate.ofRequest title descr none) task_id now).2 =
      { title := title, description := descr, status := .pending,
        id := task_id, created_at := now, updated_at := now } ∧
    ∀ st, (create_task store (TaskCreate.ofRequest title descr st) task_id now).2.created_at =
      (create_task store (TaskCreate.ofRequest title descr st) task_id now).2.updated_at :=
  ⟨rfl, fun _ => rfl⟩

/-- Witness for C2 at a concrete valid request. -/
theorem create_task_defaults_witness :
    (create_task [] (TaskCreate.ofRequest "Buy milk" (some "2 liters") none) "a" 5).2 =
      { title := "Buy milk", description := some "2 liters", status := .pending,
        id := "a", created_at := 5, updated_at := 5 } :=
  (create_task_defaults [] "Buy milk" (some "2 liters") "a" 5 (by decide)).1

/-- Claim C3: the get handler returns the 404 error exactly when zero rows
match the id, and returns the Task built from the first matching row when
at least one row matches. -/
theorem get_task_404_iff (store : List Row) (task_id : String) :
    (get_task store task_id = .error taskNotFound ↔
      store.filter (fun r => r.id = task_id) = []) ∧
    ∀ r rest, store.filter (fun r => r.id = task_id) = r :: rest →
      get_task store task_id = .ok (row_to_task r) := by
  constructor
  · constructor
    · intro hg
      cases hres : store.filter (fun r => r.id = task_id) with
      | nil => rfl
      | cons r rest => simp [get_task, hres] at hg
    · intro hres
      simp [get_task, hres]
  · intro r rest hres
    simp [get_task, hres]

/-- Witness for C3: an empty store yields 404 and a one-row store yields
the row's Task. -/
theorem get_task_404_iff_witness :
    get_task [] "a" = .error taskNotFound ∧
    get_task [row0] "a" = .ok (row_to_task row0) :=
  ⟨(get_task_404_iff [] "a").1.mpr rfl,
   (get_task_404_iff [row0] "a").2 row0 [] rfl⟩

/-- Claim C10: when at least one row matches the id, the first-row access
is safe: the get handler returns the Task built from the first matching row
and raises no error, also when several rows share the id. -/
theorem get_task_first_match (store : List Row) (task_id : String) (r : Row)
    (rest : List Row)
    (h : store.filter (fun x => x.id = task_id) = r :: rest) :
    get_task store task_id = .ok (row_to_task r) ∧
    ∀ e, get_task store task_id ≠ .error e := by
  have hg : get_task store task_id = .ok (row_to_task r) := by
    simp [get_task, h]
  exact ⟨hg, fun e he => by rw [hg] at he; exact Except.noConfusion he⟩

/-- Witness for C10 on a store holding two rows with the same id. -/
theorem get_task_first_match_witness :
    get_task [row0, row1] "a" = .ok (row_to_task row0) :=
  (get_task_first_match [row0, row1] "a" row0 [row1] rfl).1

/-- Claim C5: on an id with no matching row, the update and delete handlers
run the existence check first, propagate the exact 404 raised by the get
step, and leave the store unchanged (no mutating query runs). -/
theorem missing_id_propagates_404 (store : List Row) (task_id : String)
    (u : TaskUpdate) (now : Nat)
    (h : store.filter (fun r => r.id = task_id) = []) :
    get_task store task_id = .error taskNotFound ∧
    update_task store task_id u now = (store, .error taskNotFound) ∧
    delete_task store task_id = (store, .error taskNotFound) := by
  have hg : get_task store task_id = .error taskNotFound := by
    simp [get_task, h]
  refine ⟨hg, ?_, ?_⟩
  · simp [update_task, hg]
  · simp [delete_task, hg]

/-- Witness for C5 on an empty store. -/
theorem missing_id_propagates_404_witness :
    get_task [] "b" = .error taskNotFound ∧
    update_task [] "b" ⟨none, none, none⟩ 7 = ([], .error taskNotFound) ∧
    delete_task [] "b" = ([], .error taskNotFound) :=
  missing_id_propagates_404 [] "b" ⟨none, none, none⟩ 7 rfl

/-- Claim C7: a create followed by a get of the returned id (with the
generated id fresh for the store) returns exactly the Task the create
returned, in every field. -/
theorem create_get_roundtrip (store : List Row) (task : TaskCreate)
    (task_id : String) (now : Nat) (h : ∀ r ∈ store, r.id ≠ task_id) :
    get_task (create_task store task task_id now).1 task_id =
      .ok (create_task store task task_id now).2 := by
  have hnil : store.filter (fun r => r.id = task_id) = [] := by
    rw [List.filter_eq_nil_iff]
    intro a ha
    simpa using h a ha
  simp [create_task, get_task, List.filter_append, hnil, row_to_task]

/-- Witness for C7: creating in a one-row store under a fresh id. -/
theorem create_get_roundtrip_witness :
    get_task (create_task [row0] ⟨"T", none, .pending⟩ "c" 9).1 "c" =
      .ok (create_task [row0] ⟨"T", none, .pending⟩ "c" 9).2 :=
  create_get_roundtrip [row0] ⟨"T", none, .pending⟩ "c" 9 (by decide)

/-- Claim C6: the list handler returns all stored tasks, sorted by
`created_at` in descending order (most recently created first), as a
permutation of the store's rows mapped to Tasks. -/
theorem list_tasks_sorted_desc (store : List Row) :
    (list_tasks store).Sorted (fun a b => b.created_at ≤ a.created_at) ∧
    (list_tasks store).Perm (store.map row_to_task) := by
  constructor
  · have hs := List.sorted_insertionSort createdDesc store
    exact List.Pairwise.map row_to_task (fun a b hab => hab) hs
  · exact List.Perm.map row_to_task (List.perm_insertionSort createdDesc store)

end BigQueryCrud

namespace BigQueryCrud

/-- Claim C4: on an existing task the UPDATE always runs — the dictionary
is never empty, even for an empty request body — its SET clause always ends
in the `updated_at = @updated_at` fragment, and every matching row of the
resulting store carries the fresh `updated_at`. -/
theorem update_always_refreshes_updated_at (u : TaskUpdate) (now : Nat)
    (store : List Row) (task_id : String) (prior : Task)
    (h : get_task store task_id = .ok prior) :
    "updated_at" ∈ (update_fields u now).map Prod.fst ∧
    (∃ pre, set_clause ((update_fields u now).map Prod.fst) =
      pre ++ "updated_at = @updated_at") ∧
    update_fields u now ≠ [] ∧
    ∀ r ∈ (update_task store task_id u now).1, r.id = task_id →
      r.updated_at = now := by
  refine ⟨?_, ?_, ?_, ?_⟩
  · rcases u with ⟨t, d, s⟩
    cases t <;> cases d <;> cases s <;> simp [update_fields]
  · rcases u with ⟨t, d, s⟩
    rcases t with _ | t <;> rcases d with _ | d <;> rcases s with _ | s
    · exact ⟨"", rfl⟩
    · exact ⟨"status = @status, ", rfl⟩
    · exact ⟨"description = @description, ", rfl⟩
    · exact ⟨"description = @description, status = @status, ", rfl⟩
    · exact ⟨"title = @title, ", rfl⟩
    · exact ⟨"title = @title, status = @status, ", rfl⟩
    · exact ⟨"title = @title, description = @description, ", rfl⟩
    · exact ⟨"title = @title, description = @description, status = @status, ", rfl⟩
  · intro hnil
    have h2 := update_fields_isEmpty u now
    rw [hnil] at h2
    simp at h2
  · intro r hr hid
    have hstore : (update_task store task_id u now).1 =
        store.map (fun x =>
          if x.id = task_id then (update_fields u now).foldl applyField x
          else x) := by
      simp [update_task, h, update_fields_isEmpty]
    rw [hstore] at hr
    rcases List.mem_map.mp hr with ⟨x, hx, hfx⟩
    by_cases hxid : x.id = task_id
    · rw [if_pos hxid, foldl_update_fields] at hfx
      rw [← hfx]
    · rw [if_neg hxid] at hfx
      exact absurd (hfx ▸ hid) hxid

/-- Witness for C4 on a one-row store with an empty update body. -/
theorem update_always_refreshes_updated_at_witness :
    "updated_at" ∈ (update_fields ⟨none, none, none⟩ 9).map Prod.fst ∧
    (∃ pre, set_clause ((update_fields ⟨none, none, none⟩ 9).map Prod.fst) =
      pre ++ "updated_at = @updated_at") ∧
    update_fields ⟨none, none, none⟩ 9 ≠ [] ∧
    ∀ r ∈ (update_task [row0] "a" ⟨none, none, none⟩ 9).1, r.id = "a" →
      r.updated_at = 9 :=
  update_always_refreshes_updated_at ⟨none, none, none⟩ 9 [row0] "a"
    (row_to_task row0) rfl

/-- Claim C1: on an existing task the update handler returns the merge of
the prior task and the request — supplied fields override, absent fields
keep the prior value, `created_at` is kept, `updated_at` is the fresh
time — and `updated_at` strictly increases whenever the clock advanced. -/
theorem update_merges_request_over_prior (store : List Row) (task_id : String)
    (u : TaskUpdate) (now : Nat) (prior : Task)
    (h : get_task store task_id = .ok prior) :
    (update_task store task_id u now).2 =
      .ok { id := task_id
            title := u.title.getD prior.title
            description := match u.description with
              | some d => some d
              | none => prior.description
            status := u.status.getD prior.status
            created_at := prior.created_at
            updated_at := now } ∧
    (prior.updated_at < now →
      ∀ t, (update_task store task_id u now).2 = .ok t →
        prior.updated_at < t.updated_at) := by
  have h1 : (update_task store task_id u now).2 =
      .ok { id := task_id
            title := u.title.getD prior.title
            description := match u.description with
              | some d => some d
              | none => prior.description
            status := u.status.getD prior.status
            created_at := prior.created_at
            updated_at := now } := by
    rcases u with ⟨t, d, s⟩
    cases t <;> cases d <;> cases s <;>
      simp [update_task, h, update_fields, dictGet]
  refine ⟨h1, fun hlt t ht => ?_⟩
  rw [h1] at ht
  injection ht with h2
  rw [← h2]
  exact hlt

/-- Witness for C1: a status-only update of the sample row keeps title and
description and refreshes `updated_at`. -/
theorem update_merges_request_over_prior_witness :
    (update_task [row0] "a" ⟨none, none, some .completed⟩ 9).2 =
      .ok { title := "Buy milk", description := some "2 liters",
            status := .completed, id := "a", created_at := 5,
            updated_at := 9 } :=
  (update_merges_request_over_prior [row0] "a" ⟨none, none, some .completed⟩ 9
    (row_to_task row0) rfl).1

/-- Claim C9: a null-valued body field parses like an omitted one (both are
`none`), so title, description and status can never be set to null by an
update; the resulting store changes only the matching rows, and on those
only the supplied fields plus `updated_at` — `id` and `created_at` are
untouched and unsupplied fields keep their stored values. -/
theorem update_null_is_omitted_frame (store : List Row) (task_id : String)
    (u : TaskUpdate) (now : Nat) (prior : Task)
    (h : get_task store task_id = .ok prior) :
    (update_task store task_id u now).1 =
      store.map (fun r =>
        if r.id = task_id then
          { r with
            title := u.title.getD r.title
            description := match u.description with
              | some d => some d
              | none => r.description
            status := u.status.getD r.status
            updated_at := now }
        else r) := by
  have hstore : (update_task store task_id u now).1 =
      store.map (fun x =>
        if x.id = task_id then (update_fields u now).foldl applyField x
        else x) := by
    simp [update_task, h, update_fields_isEmpty]
  rw [hstore]
  simp only [foldl_update_fields]

/-- Witness for C9: a title-only update of the sample row rewrites only
title and `updated_at` on the matching row. -/
theorem update_null_is_omitted_frame_witness :
    (update_task [row0] "a" ⟨some "New", none, none⟩ 9).1 =
      [{ row0 with title := "New", updated_at := 9 }] :=
  update_null_is_omitted_frame [row0] "a" ⟨some "New", none, none⟩ 9
    (row_to_task row0) rfl

end BigQueryCrud

namespace BigQueryCrud

/-- The dictionary keys — hence the SET clause — depend only on which
fields were supplied, never on their values or on the timestamps. -/
lemma update_fields_keys_of_presence (u1 u2 : TaskUpdate) (n1 n2 : Nat)
    (hp : presence u1 = presence u2) :
    (update_fields u1 n1).map Prod.fst = (update_fields u2 n2).map Prod.fst := by
  rcases u1 with ⟨a1, b1, c1⟩
  rcases u2 with ⟨a2, b2, c2⟩
  cases a1 <;> cases a2 <;> cases b1 <;> cases b2 <;> cases c1 <;> cases c2 <;>
    simp_all [presence, update_fields]

/-- Claim C8: requests to the same endpoint that differ only in the
untrusted values (title, description, status, id, timestamps) produce
identical query texts — the update text varies only with the presence
pattern of the body fields — and the untrusted values reach the store only
inside the typed parameter list. -/
theorem query_text_noninterference (tbl : String) (id1 id2 : String)
    (t1 t2 : TaskCreate) (n1 n2 : Nat) (u1 u2 : TaskUpdate)
    (hp : presence u1 = presence u2) :
    (createQuery tbl id1 t1 n1).text = (createQuery tbl id2 t2 n2).text ∧
    (getQuery tbl id1).text = (getQuery tbl id2).text ∧
    (updateQuery tbl id1 (update_fields u1 n1)).text =
      (updateQuery tbl id2 (update_fields u2 n2)).text ∧
    (deleteQuery tbl id1).text = (deleteQuery tbl id2).text ∧
    ScalarQueryParameter.mk "id" .STRING (.str id1) ∈
      (createQuery tbl id1 t1 n1).params ∧
    ScalarQueryParameter.mk "title" .STRING (.str t1.title) ∈
      (createQuery tbl id1 t1 n1).params ∧
    ScalarQueryParameter.mk "task_id" .STRING (.str id1) ∈
      (getQuery tbl id1).params ∧
    ScalarQueryParameter.mk "task_id" .STRING (.str id1) ∈
      (updateQuery tbl id1 (update_fields u1 n1)).params ∧
    (∀ f ∈ update_fields u1 n1,
      ScalarQueryParameter.mk f.1 (paramTypeFor f.1) f.2 ∈
        (updateQuery tbl id1 (update_fields u1 n1)).params) ∧
    ScalarQueryParameter.mk "task_id" .STRING (.str id1) ∈
      (deleteQuery tbl id1).params := by
  refine ⟨rfl, rfl, ?_, rfl, ?_, ?_, ?_, ?_, ?_, ?_⟩
  · simp only [updateQuery, updateQueryText,
      update_fields_keys_of_presence u1 u2 n1 n2 hp]
  · simp [createQuery]
  · simp [createQuery]
  · simp [getQuery]
  · simp [updateQuery]
  · intro f hf
    exact List.mem_cons_of_mem _ (List.mem_map_of_mem _ hf)
  · simp [deleteQuery]

/-- Witness for C8: two update requests with the same presence pattern but
different values and timestamps yield the same UPDATE text. -/
theorem query_text_noninterference_witness :
    (updateQuery "p.d.t" "a" (update_fields ⟨some "X", none, some .pending⟩ 3)).text =
      (updateQuery "p.d.t" "b" (update_fields ⟨some "Y", none, some .completed⟩ 4)).text :=
  (query_text_noninterference "p.d.t" "a" "b" ⟨"T1", none, .pending⟩
    ⟨"T2", some "D", .completed⟩ 3 4 ⟨some "X", none, some .pending⟩
    ⟨some "Y", none, some .completed⟩ rfl).2.2.1

end BigQueryCrud
